import Mathlib

/-!
Shallow embedding of the border-security wireless-sensor-network simulator
(`main.py`, `models.py`, `ai_model.py`, `config.py`).  Machine floats are
modelled as rationals.  The source compares Euclidean distances obtained with
`np.sqrt`; here those comparisons are carried out on squared distances, which
is equivalent because the square root is strictly monotone on nonnegative
arguments and both comparison operands are nonnegative.
-/

namespace WSN

/-- config.py: SIMULATION_CONFIG border length in metres (1 km). -/
def borderLength : ℚ := 1000

/-- config.py: SIMULATION_CONFIG network sensor_nodes (32). -/
def sensorNodesCount : ℕ := 32

/-- config.py: SIMULATION_CONFIG network camera_node_percentage (0.25). -/
def cameraNodePercentage : ℚ := 0.25

/-- config.py: SIMULATION_CONFIG network sensor_range (120 m). -/
def sensorRange : ℚ := 120

/-- config.py: SIMULATION_CONFIG network communication_range (200 m). -/
def communicationRange : ℚ := 200

/-- config.py: SIMULATION_CONFIG ai confidence_threshold (0.95). -/
def confidenceThreshold : ℚ := 0.95

/-- config.py: SIMULATION_CONFIG energy solar_recharge_amount (12). -/
def solarRechargeAmount : ℚ := 12

/-- Intrusion categories, config.py SIMULATION_CONFIG intrusion types. -/
inductive IKind
  | human
  | animal
  | vehicle
  deriving DecidableEq

/-- Classifier labels (ai_model.py): the intrusion categories plus normal. -/
inductive Label
  | normal
  | human
  | animal
  | vehicle
  deriving DecidableEq

/-- Alert severities returned by _calculate_severity in ai_model.py. -/
inductive Severity
  | LOW
  | MEDIUM
  | HIGH
  | CRITICAL
  deriving DecidableEq

/-- models.py SensorNode.sensor_readings dict. -/
structure SensorReadings where
  pir : ℕ
  vibration : ℚ
  thermal : ℚ
  acoustic : ℚ
  signal_strength : ℚ
  intrusion_detected : Bool
  deriving DecidableEq

/-- models.py SensorNode, restricted to the fields the verified core reads or
writes.  camera_recording stands for camera_module.status == RECORDING (the
camera module itself is an external collaborator), and thermal_history for
sensor_stream thermal_history. -/
structure SensorNode where
  idx : ℕ
  x : ℚ
  y : ℚ
  is_active : Bool
  battery : ℚ
  has_camera : Bool
  camera_recording : Bool
  cluster_head_id : Option ℕ
  thermal_history : List ℚ
  readings : SensorReadings
  deriving DecidableEq

/-- models.py ClusterHead, restricted to the fields the verified core uses;
data_buffer_len stands for len(data_buffer). -/
structure ClusterHead where
  chid : ℕ
  x : ℚ
  y : ℚ
  is_active : Bool
  battery : ℚ
  data_buffer_len : ℕ
  deriving DecidableEq

/-- main.py _simulate_intrusions: the intrusion record dict. -/
structure Intrusion where
  itype : IKind
  position : ℚ
  start_time : ℤ
  duration : ℤ
  detected : Bool
  affected_nodes : ℕ
  deriving DecidableEq

/-- placeholder intrusion used as the List.getD default. -/
def dummyIntrusion : Intrusion :=
  { itype := .human, position := 0, start_time := 0, duration := 0,
    detected := false, affected_nodes := 0 }

/-- models.py SensorNode.__init__ initial sensor_readings (the random
signal_strength draw is taken as a parameter). -/
def initialReadings (signal : ℚ) : SensorReadings :=
  { pir := 0, vibration := 0, thermal := 25, acoustic := 0,
    signal_strength := signal, intrusion_detected := false }

/-- placeholder node used as the List.getD default. -/
def dummyNode : SensorNode :=
  { idx := 0, x := 0, y := 0, is_active := true, battery := 100,
    has_camera := false, camera_recording := false, cluster_head_id := none,
    thermal_history := [], readings := initialReadings 1 }

/-- main.py _simulate_intrusions lines 393-397: the expiry pass keeps an
intrusion exactly while current_time - start_time < duration. -/
def simulate_intrusions_expire (current_time : ℤ) (l : List Intrusion) :
    List Intrusion :=
  l.filter fun i => decide (current_time - i.start_time < i.duration)

/-- matching condition of main.py lines 448-449: the intrusion is not yet
detected and its position is within 100 m of the cluster x position.  The
alert label is not consulted by the source. -/
def matchPred (clusterX : ℚ) (i : Intrusion) : Bool :=
  !i.detected && decide (|i.position - clusterX| < 100)

/-- main.py line 450: set the detected flag. -/
def setDetected (i : Intrusion) : Intrusion := { i with detected := true }

/-- main.py lines 447-456: scan current_intrusions in order, mark the first
match as detected, record the detection latency simulation_time - start_time,
then break.  Returns the updated list and the recorded latency, if any. -/
def mark_first_detected (clusterX : ℚ) (simTime : ℤ) :
    List Intrusion → List Intrusion × Option ℤ
  | [] => ([], none)
  | i :: rest =>
    if matchPred clusterX i then
      (setDetected i :: rest, some (simTime - i.start_time))
    else
      (i :: (mark_first_detected clusterX simTime rest).1,
        (mark_first_detected clusterX simTime rest).2)

/-- main.py line 442: an alert is generated iff the prediction is not normal
and the confidence strictly exceeds the configured threshold. -/
def should_alert (prediction : Label) (confidence threshold : ℚ) : Bool :=
  (prediction != .normal) && decide (confidence > threshold)

/-- main.py lines 442-456, the alert/marking step of _process_cluster_data for
one cluster: when an alert fires the matcher runs, otherwise the intrusion
list is unchanged.  Returns (updated intrusions, recorded latency, whether an
alert was created). -/
def process_cluster_mark (prediction : Label) (confidence threshold : ℚ)
    (clusterX : ℚ) (simTime : ℤ) (ints : List Intrusion) :
    List Intrusion × Option ℤ × Bool :=
  if should_alert prediction confidence threshold then
    ((mark_first_detected clusterX simTime ints).1,
      (mark_first_detected clusterX simTime ints).2, true)
  else (ints, none, false)

/-- main.py lines 147-149: reset every node's intrusion_detected flag at the
start of the cycle. -/
def reset_intrusion_flags (nodes : List SensorNode) : List SensorNode :=
  nodes.map fun n =>
    { n with readings := { n.readings with intrusion_detected := false } }

/-- main.py lines 242-259: the forced canonical reading pattern per intrusion
type (pir is always set to 1, then the type-specific values, then the
intrusion_detected flag). -/
def forcedPattern (t : IKind) (r : SensorReadings) : SensorReadings :=
  match t with
  | .human => { r with
      pir := 1, thermal := 36, vibration := 0.8, acoustic := 0.9,
      intrusion_detected := true }
  | .vehicle => { r with
      pir := 1, vibration := 1, acoustic := 1, thermal := 55,
      intrusion_detected := true }
  | .animal => { r with
      pir := 1, thermal := 32, vibration := 0.6, acoustic := 0.7,
      intrusion_detected := true }

/-- main.py lines 236-240 activation condition: distance along the border is
at most sensor_range * 1.05 and the node is active. -/
def activationEligible (position_x : ℚ) (n : SensorNode) : Bool :=
  decide (|n.x - position_x| ≤ sensorRange * 1.05) && n.is_active

/-- main.py _activate_nearby_sensors, node part (the affected_nodes counter
written back onto the intrusion record is not needed by the claims). -/
def activate_nearby_sensors (position_x : ℚ) (t : IKind)
    (nodes : List SensorNode) : List SensorNode :=
  nodes.map fun n =>
    if activationEligible position_x n then
      { n with readings := forcedPattern t n.readings }
    else n

/-- main.py lines 147-153: the per-cycle synthesis pass: reset all
intrusion_detected flags, then apply each active intrusion's activation in
list order. -/
def synthesis_pass (ints : List Intrusion) (nodes : List SensorNode) :
    List SensorNode :=
  ints.foldl (fun ns i => activate_nearby_sensors i.position i.itype ns)
    (reset_intrusion_flags nodes)

/-- truthiness of sensor_readings.values() as consumed by any(...) in main.py
line 373 (Python zero values and False are falsy). -/
def anyReadingTruthy (r : SensorReadings) : Bool :=
  (r.pir != 0) || decide (r.vibration ≠ 0) || decide (r.thermal ≠ 0) ||
    decide (r.acoustic ≠ 0) || decide (r.signal_strength ≠ 0) ||
    r.intrusion_detected

/-- per-cycle consumption of main.py lines 369-378: base 0.015, plus 0.008
when any reading is truthy, plus 0.025 when the camera is recording. -/
def node_cycle_consumption (n : SensorNode) : ℚ :=
  0.015 + (if anyReadingTruthy n.readings then 0.008 else 0) +
    (if n.has_camera && n.camera_recording then 0.025 else 0)

/-- battery evolution of main.py lines 380-386: clamp at 0 after consumption,
then the optional solar recharge clamped at 100. -/
def clampBattery (solarFires : Bool) (b c : ℚ) : ℚ :=
  if solarFires then min 100 (max 0 (b - c) + solarRechargeAmount)
  else max 0 (b - c)

/-- main.py _update_energy_consumption for one node (solarFires tells whether
the random solar-recharge draw succeeded this cycle); inactive nodes are
skipped. -/
def update_energy_consumption_node (solarFires : Bool) (n : SensorNode) :
    SensorNode :=
  if n.is_active then
    { n with battery := clampBattery solarFires n.battery (node_cycle_consumption n) }
  else n

/-- consumption of models.py ClusterHead.simulate_energy_consumption: base
0.05, plus 0.02 * len(data_buffer) when the buffer is nonempty. -/
def ch_cycle_consumption (ch : ClusterHead) : ℚ :=
  0.05 + (if ch.data_buffer_len ≠ 0 then 0.02 * (ch.data_buffer_len : ℚ) else 0)

/-- models.py ClusterHead.simulate_energy_consumption, battery and
deactivation step. -/
def simulate_energy_consumption_ch (ch : ClusterHead) : ClusterHead :=
  { ch with
    battery := max 0 (ch.battery - ch_cycle_consumption ch),
    is_active :=
      if max 0 (ch.battery - ch_cycle_consumption ch) < 5 then false
      else ch.is_active }

/-- main.py line 64: the strategic camera anchor positions. -/
def perfectCameraPositions : List ℚ := [100, 300, 500, 700, 150, 350, 650, 850]

/-- main.py line 57: camera_count = int(total * percentage); int() truncates
toward zero and the product is nonnegative, hence the floor. -/
def cameraQuota : ℕ :=
  (((sensorNodesCount : ℚ) * cameraNodePercentage).floor).toNat

/-- main.py lines 75-79 for one node at abscissa x: scan anchors in list
order; the node gets a camera at the first anchor within 25 m provided
len(camera_assigned) < camera_count. -/
def camMatch (assigned : List ℚ) (quota : ℕ) (x : ℚ) : Option ℚ :=
  perfectCameraPositions.find? fun p =>
    decide (|x - p| < 25) && decide (assigned.length < quota)

/-- one deployment step of main.py lines 68-88: compute the node abscissa
(i / total) * border_length, try to assign a camera, and record the anchor in
the camera_assigned set (a list without duplicates models the Python set's
cardinality). -/
def camStep (quota total : ℕ) (st : List Bool × List ℚ) (i : ℕ) :
    List Bool × List ℚ :=
  let x := ((i : ℚ) / (total : ℚ)) * borderLength
  match camMatch st.2 quota x with
  | some p => (st.1 ++ [true], if p ∈ st.2 then st.2 else st.2 ++ [p])
  | none => (st.1 ++ [false], st.2)

/-- main.py _deploy_perfect_network camera flags: the has_camera flag of each
node in deployment order. -/
def deployCameraFlags (total quota : ℕ) : List Bool :=
  ((List.range total).foldl (camStep quota total) ([], [])).1

/-- models.py _aggregate_sensor_data result dict. -/
structure SensorSummary where
  total_motion : ℕ
  avg_vibration : ℚ
  max_vibration : ℚ
  avg_temperature : ℚ
  max_temperature : ℚ
  acoustic_events : ℕ
  intrusion_nodes : ℕ
  camera_nodes : ℕ
  deriving DecidableEq

/-- models.py collect_cluster_data result dict, restricted to the fields the
claims use.  sensor_summary is optional because analyze_intrusion in
ai_model.py defends against a missing key. -/
structure ClusterData where
  cluster_id : ℕ
  cluster_x : ℚ
  cluster_y : ℚ
  total_nodes : ℕ
  sensor_summary : Option SensorSummary
  deriving DecidableEq

/-- np.max over a list with a default for the empty case (the source only
applies it to nonempty lists). -/
def maxOr (dflt : ℚ) : List ℚ → ℚ
  | [] => dflt
  | h :: t => t.foldl max h

/-- models.py get_real_time_sensor_data: max_temp_since_last_check is
np.max(thermal_history), and 25.0 when the history is empty. -/
def maxTempSinceLastCheck (n : SensorNode) : ℚ := maxOr 25 n.thermal_history

/-- squared Euclidean distance. -/
def sqDist (x1 y1 x2 y2 : ℚ) : ℚ := (x1 - x2) ^ 2 + (y1 - y2) ^ 2

/-- models.py _is_in_range: sqrt of the squared distance at most
communication_range, stated on squares. -/
def is_in_range_sq (ch : ClusterHead) (n : SensorNode) : Bool :=
  decide (sqDist ch.x ch.y n.x n.y ≤ communicationRange ^ 2)

/-- membership test of models.py collect_cluster_data lines 176-180: active,
assigned to this cluster head, and within communication range. -/
def memberPred (ch : ClusterHead) (n : SensorNode) : Bool :=
  n.is_active && (n.cluster_head_id == some ch.chid) && is_in_range_sq ch n

/-- the active in-range members enumerated by collect_cluster_data. -/
def active_members (ch : ClusterHead) (nodes : List SensorNode) :
    List SensorNode :=
  nodes.filter (memberPred ch)

/-- models.py _aggregate_sensor_data. -/
def aggregate_sensor_data (ms : List SensorNode) : SensorSummary :=
  { total_motion := (ms.map fun n => n.readings.pir).sum,
    avg_vibration := (ms.map fun n => n.readings.vibration).sum / (ms.length : ℚ),
    max_vibration := maxOr 0 (ms.map fun n => n.readings.vibration),
    avg_temperature := (ms.map fun n => n.readings.thermal).sum / (ms.length : ℚ),
    max_temperature := maxOr 25 (ms.map maxTempSinceLastCheck),
    acoustic_events := ms.countP fun n => decide (n.readings.acoustic > 0.5),
    intrusion_nodes := ms.countP fun n => n.readings.intrusion_detected,
    camera_nodes := ms.countP fun n => n.has_camera && n.camera_recording }

/-- models.py collect_cluster_data: nothing for an inactive head or a head
with no active in-range members, otherwise the aggregated snapshot. -/
def collect_cluster_data (ch : ClusterHead) (nodes : List SensorNode) :
    Option ClusterData :=
  if !ch.is_active then none
  else
    if (active_members ch nodes).isEmpty then none
    else some
      { cluster_id := ch.chid, cluster_x := ch.x, cluster_y := ch.y,
        total_nodes := (active_members ch nodes).length,
        sensor_summary := some (aggregate_sensor_data (active_members ch nodes)) }

/-- one step of the nearest-head scan of main.py _assign_clusters lines
130-137, on squared distances; the none accumulator plays the role of
min_distance = infinity (the comparison d < infinity is then always true, so
only the range check remains). -/
def nearest_step (n : SensorNode) (best : Option (ℕ × ℚ)) (ch : ClusterHead) :
    Option (ℕ × ℚ) :=
  let d := sqDist n.x n.y ch.x ch.y
  match best with
  | none => if decide (d ≤ communicationRange ^ 2) then some (ch.chid, d) else none
  | some (b, bd) =>
    if decide (d < bd) && decide (d ≤ communicationRange ^ 2) then some (ch.chid, d)
    else some (b, bd)

/-- main.py _assign_clusters for one node: the cluster head it joins, or none
when no head is within communication range. -/
def assign_clusters_nearest (chs : List ClusterHead) (n : SensorNode) :
    Option ℕ :=
  (chs.foldl (nearest_step n) none).map Prod.fst

/-- feature vector of ai_model.py analyze_intrusion lines 115-120. -/
def featuresOf (cd : ClusterData) (s : SensorSummary) : List ℚ :=
  [(s.total_motion : ℚ), s.avg_vibration, s.max_temperature,
    (s.acoustic_events : ℚ) / ((max 1 cd.total_nodes : ℕ) : ℚ)]

/-- ai_model.py analyze_intrusion: a missing input or missing sensor_summary
returns (normal, 0.0); a classifier invocation failure (the classifier is a
black-box capability modelled as an Except-valued function, its exceptions as
the error case) is caught and also degrades to (normal, 0.0). -/
def analyze_intrusion (classify : List ℚ → Except Unit (Label × ℚ)) :
    Option ClusterData → Label × ℚ
  | none => (.normal, 0)
  | some cd =>
    match cd.sensor_summary with
    | none => (.normal, 0)
    | some s =>
      match classify (featuresOf cd s) with
      | .error _ => (.normal, 0)
      | .ok r => r

/-- ai_model.py _calculate_severity. -/
def calculate_severity (intrusion_type : Label) (confidence : ℚ) : Severity :=
  if confidence < 0.8 then .LOW
  else if intrusion_type = .human ∧ confidence ≥ 0.95 then .CRITICAL
  else if intrusion_type = .vehicle ∧ confidence ≥ 0.9 then .HIGH
  else .MEDIUM

set_option maxRecDepth 8000

/-- an expired intrusion used by the C5 witness. -/
def c5Intrusion : Intrusion :=
  { itype := .vehicle, position := 500, start_time := 0, duration := 40,
    detected := true, affected_nodes := 0 }

/-- C5: an intrusion survives the per-cycle expiry pass exactly when the
elapsed simulation time since its spawn is strictly less than its sampled
duration, and it is removed exactly when the elapsed time has reached the
duration; the detected flag plays no role in the condition. -/
theorem C5_expiry_exact (t : ℤ) (l : List Intrusion) (i : Intrusion) :
    (i ∈ simulate_intrusions_expire t l ↔
      i ∈ l ∧ t - i.start_time < i.duration) ∧
    (i ∈ l →
      (i ∉ simulate_intrusions_expire t l ↔ i.duration ≤ t - i.start_time)) := by
  constructor
  · simp [simulate_intrusions_expire, List.mem_filter]
  · intro hi
    simp [simulate_intrusions_expire, List.mem_filter, hi]

/-- C5 witness: a concrete intrusion of duration 40 spawned at time 0 is
removed by the expiry pass at time 40 even though it is already detected. -/
theorem C5_expiry_exact_witness :
    c5Intrusion ∉ simulate_intrusions_expire 40 [c5Intrusion] :=
  ((C5_expiry_exact 40 [c5Intrusion] c5Intrusion).2
      (List.mem_singleton.mpr rfl)).mpr (by decide)

/-- the per-node consumption is nonnegative. -/
theorem node_cycle_consumption_nonneg (n : SensorNode) :
    0 ≤ node_cycle_consumption n := by
  unfold node_cycle_consumption
  split_ifs <;> norm_num

/-- the cluster-head consumption is nonnegative. -/
theorem ch_cycle_consumption_nonneg (ch : ClusterHead) :
    0 ≤ ch_cycle_consumption ch := by
  unfold ch_cycle_consumption
  split_ifs with h
  · positivity
  · norm_num

/-- the battery clamp keeps values inside [0, 100] whenever the incoming
battery is at most 100 and the consumption is nonnegative. -/
theorem clampBattery_mem (s : Bool) (b c : ℚ) (hb1 : b ≤ 100) (hc : 0 ≤ c) :
    0 ≤ clampBattery s b c ∧ clampBattery s b c ≤ 100 := by
  have h0 : (0 : ℚ) ≤ max 0 (b - c) := le_max_left 0 (b - c)
  have h100 : max 0 (b - c) ≤ 100 := max_le (by norm_num) (by linarith)
  unfold clampBattery
  split_ifs
  · constructor
    · refine le_min (by norm_num) ?_
      unfold solarRechargeAmount
      linarith
    · exact min_le_left 100 _
  · exact ⟨h0, h100⟩

/-- C6: after the per-cycle energy update, a sensor node's battery stays in
the closed interval [0, 100], and so does a cluster head's after its energy
simulation step, provided they started inside that interval. -/
theorem C6_battery_in_range (f : Bool) (n : SensorNode) (ch : ClusterHead)
    (hn0 : 0 ≤ n.battery) (hn1 : n.battery ≤ 100)
    (hc0 : 0 ≤ ch.battery) (hc1 : ch.battery ≤ 100) :
    (0 ≤ (update_energy_consumption_node f n).battery ∧
      (update_energy_consumption_node f n).battery ≤ 100) ∧
    (0 ≤ (simulate_energy_consumption_ch ch).battery ∧
      (simulate_energy_consumption_ch ch).battery ≤ 100) := by
  constructor
  · unfold update_energy_consumption_node
    by_cases ha : n.is_active
    · simpa [ha] using
        clampBattery_mem f n.battery (node_cycle_consumption n) hn1
          (node_cycle_consumption_nonneg n)
    · simpa [ha] using ⟨hn0, hn1⟩
  · unfold simulate_energy_consumption_ch
    constructor
    · exact le_max_left 0 _
    · exact max_le (by norm_num)
        (by linarith [ch_cycle_consumption_nonneg ch])

/-- a concrete node used by the C6 witness. -/
def c6Node : SensorNode := { dummyNode with battery := 90 }

/-- a concrete cluster head used by the C6 witness. -/
def c6Head : ClusterHead :=
  { chid := 1, x := 200, y := 125, is_active := true, battery := 3,
    data_buffer_len := 2 }

/-- C6 witness at a concrete node and cluster head. -/
theorem C6_battery_in_range_witness :
    (0 ≤ (update_energy_consumption_node true c6Node).battery ∧
      (update_energy_consumption_node true c6Node).battery ≤ 100) ∧
    (0 ≤ (simulate_energy_consumption_ch c6Head).battery ∧
      (simulate_energy_consumption_ch c6Head).battery ≤ 100) :=
  C6_battery_in_range true c6Node c6Head
    (of_decide_eq_true (by with_unfolding_all rfl))
    (of_decide_eq_true (by with_unfolding_all rfl))
    (of_decide_eq_true (by with_unfolding_all rfl))
    (of_decide_eq_true (by with_unfolding_all rfl))

/-- a node about to hit battery 0, used by the C2 counterexample. -/
def c2Node : SensorNode := { dummyNode with battery := 0.02, x := 100 }

/-- C2 counterexample: a node whose battery reaches 0 during the energy
update is not marked inactive, and it stays eligible for the synthesis
activation pass. -/
theorem C2_counterexample :
    (update_energy_consumption_node false c2Node).battery = 0 ∧
    (update_energy_consumption_node false c2Node).is_active = true ∧
    activationEligible 100 (update_energy_consumption_node false c2Node) = true :=
  of_decide_eq_true (by with_unfolding_all rfl)

/-- C2 amended: the energy update never changes the is_active flag of a
sensor node, and the synthesis-activation and cluster-membership tests do not
consult the battery at all, so a battery-0 node keeps participating. -/
theorem C2_no_deactivation (f : Bool) (n : SensorNode) (b p : ℚ)
    (ch : ClusterHead) :
    (update_energy_consumption_node f n).is_active = n.is_active ∧
    activationEligible p { n with battery := b } = activationEligible p n ∧
    memberPred ch { n with battery := b } = memberPred ch n := by
  refine ⟨?_, rfl, rfl⟩
  unfold update_energy_consumption_node
  by_cases ha : n.is_active <;> simp [ha]

/-- C7: with the shipped configuration (32 nodes, border length 1000, camera
percentage 0.25, hence quota int(32 * 0.25) = 8), the deployment loop flags
10 nodes as camera-capable, because the guard compares the number of distinct
anchors used, not the number of flagged nodes; the printed claim of exactly 8
cameras is violated. -/
theorem C7_camera_quota_exceeded :
    cameraQuota = 8 ∧
    (deployCameraFlags sensorNodesCount cameraQuota).count true = 10 :=
  of_decide_eq_true (by with_unfolding_all rfl)

/-- C8: a missing input, a missing sensor_summary, and a failing classifier
invocation all degrade to the (normal, 0) result, and that result can never
satisfy the alert condition, so a failed classification produces no alert. -/
theorem C8_classifier_degrade (classify : List ℚ → Except Unit (Label × ℚ))
    (cd : ClusterData) (s : SensorSummary) (conf th : ℚ) :
    analyze_intrusion classify none = (Label.normal, 0) ∧
    (cd.sensor_summary = none →
      analyze_intrusion classify (some cd) = (Label.normal, 0)) ∧
    (cd.sensor_summary = some s →
      classify (featuresOf cd s) = Except.error () →
      analyze_intrusion classify (some cd) = (Label.normal, 0)) ∧
    should_alert Label.normal conf th = false := by
  refine ⟨rfl, ?_, ?_, ?_⟩
  · intro h
    simp [analyze_intrusion, h]
  · intro h1 h2
    simp [analyze_intrusion, h1, h2]
  · simp [should_alert]

/-- a concrete sensor summary used by the C8 witness. -/
def c8Summary : SensorSummary :=
  { total_motion := 5, avg_vibration := 0.5, max_vibration := 1,
    avg_temperature := 30, max_temperature := 40, acoustic_events := 2,
    intrusion_nodes := 3, camera_nodes := 1 }

/-- a concrete cluster snapshot used by the C8 witness. -/
def c8Cluster : ClusterData :=
  { cluster_id := 1, cluster_x := 200, cluster_y := 125, total_nodes := 8,
    sensor_summary := some c8Summary }

/-- a classifier stub whose invocation always fails. -/
def failingClassify (features : List ℚ) : Except Unit (Label × ℚ) :=
  Except.error ()

/-- C8 witness: the degraded result and the absent alert on a concrete
snapshot with an always-failing classifier. -/
theorem C8_classifier_degrade_witness :
    analyze_intrusion failingClassify (some c8Cluster) = (Label.normal, 0) ∧
    should_alert Label.normal 0 confidenceThreshold = false :=
  ⟨(C8_classifier_degrade failingClassify c8Cluster c8Summary 0
      confidenceThreshold).2.2.1 rfl rfl,
    (C8_classifier_degrade failingClassify c8Cluster c8Summary 0
      confidenceThreshold).2.2.2⟩

/-- C10 counterexample: with threshold 0.8 (which is at least 0.8) a human
alert of confidence 0.9 is created yet its severity is MEDIUM, not
CRITICAL. -/
theorem C10_counterexample :
    ((0.8 : ℚ) ≤ 0.8) ∧
    should_alert Label.human 0.9 0.8 = true ∧
    calculate_severity Label.human 0.9 = Severity.MEDIUM ∧
    Severity.MEDIUM ≠ Severity.CRITICAL :=
  of_decide_eq_true (by with_unfolding_all rfl)

/-- C10 amended: whenever the threshold is at least 0.8, every created alert
has severity CRITICAL, HIGH or MEDIUM and never LOW; and whenever the
threshold is at least 0.95 (the shipped configuration), every human alert is
CRITICAL. -/
theorem C10_severity_classes (p : Label) (conf th : ℚ)
    (hth : (0.8 : ℚ) ≤ th) (halert : should_alert p conf th = true) :
    (calculate_severity p conf = Severity.CRITICAL ∨
      calculate_severity p conf = Severity.HIGH ∨
      calculate_severity p conf = Severity.MEDIUM) ∧
    calculate_severity p conf ≠ Severity.LOW ∧
    ((0.95 : ℚ) ≤ th → p = Label.human →
      calculate_severity p conf = Severity.CRITICAL) := by
  have hconf : th < conf := by
    simp [should_alert] at halert
    exact halert.2
  have h08 : ¬ conf < 0.8 := by linarith
  refine ⟨?_, ?_, ?_⟩
  · unfold calculate_severity
    rw [if_neg h08]
    split_ifs <;> simp
  · unfold calculate_severity
    rw [if_neg h08]
    split_ifs <;> simp
  · intro h95 hp
    have hc95 : conf ≥ 0.95 := by linarith
    unfold calculate_severity
    rw [if_neg h08, if_pos ⟨hp, hc95⟩]

/-- C10 witness: a vehicle alert at confidence 0.97 against the shipped
threshold 0.95. -/
theorem C10_severity_classes_witness :
    (calculate_severity Label.vehicle 0.97 = Severity.CRITICAL ∨
      calculate_severity Label.vehicle 0.97 = Severity.HIGH ∨
      calculate_severity Label.vehicle 0.97 = Severity.MEDIUM) ∧
    calculate_severity Label.vehicle 0.97 ≠ Severity.LOW ∧
    ((0.95 : ℚ) ≤ 0.95 → Label.vehicle = Label.human →
      calculate_severity Label.vehicle 0.97 = Severity.CRITICAL) :=
  C10_severity_classes Label.vehicle 0.97 0.95
    (of_decide_eq_true (by with_unfolding_all rfl))
    (of_decide_eq_true (by with_unfolding_all rfl))

/-- an animal intrusion in tolerance, used by the C1 counterexample. -/
def c1IntrusionAnimal : Intrusion :=
  { itype := .animal, position := 500, start_time := 0, duration := 40,
    detected := false, affected_nodes := 0 }

/-- a human intrusion in tolerance, used by the C1 counterexample. -/
def c1IntrusionHuman : Intrusion :=
  { itype := .human, position := 500, start_time := 0, duration := 40,
    detected := false, affected_nodes := 0 }

/-- C1 counterexample: a human-labelled alert marks the animal intrusion at
the head of the list as detected and skips the undetected human intrusion,
so the matcher neither requires nor prefers the alert's own type. -/
theorem C1_counterexample :
    (process_cluster_mark Label.human 0.99 confidenceThreshold 500 5
        [c1IntrusionAnimal, c1IntrusionHuman]).2.2 = true ∧
    ((process_cluster_mark Label.human 0.99 confidenceThreshold 500 5
        [c1IntrusionAnimal, c1IntrusionHuman]).1.getD 0 dummyIntrusion).itype
      = IKind.animal ∧
    ((process_cluster_mark Label.human 0.99 confidenceThreshold 500 5
        [c1IntrusionAnimal, c1IntrusionHuman]).1.getD 0 dummyIntrusion).detected
      = true ∧
    ((process_cluster_mark Label.human 0.99 confidenceThreshold 500 5
        [c1IntrusionAnimal, c1IntrusionHuman]).1.getD 1 dummyIntrusion).itype
      = IKind.human ∧
    ((process_cluster_mark Label.human 0.99 confidenceThreshold 500 5
        [c1IntrusionAnimal, c1IntrusionHuman]).1.getD 1 dummyIntrusion).detected
      = false ∧
    (process_cluster_mark Label.human 0.99 confidenceThreshold 500 5
        [c1IntrusionAnimal, c1IntrusionHuman]).2.1 = some 5 :=
  of_decide_eq_true (by with_unfolding_all rfl)

/-- zipping a list with itself contains no pair whose first component is
detected while its second is not. -/
theorem countP_flip_zip_self (l : List Intrusion) :
    List.countP (fun p => p.1.detected && !p.2.detected) (l.zip l) = 0 := by
  induction l with
  | nil => rfl
  | cons i rest ih => simp [List.zip_cons_cons, List.countP_cons, ih]

/-- C4: the matcher leaves every already-detected intrusion entry completely
unchanged (so a detected flag is never reset and subsequent alerts skip it),
and one alert pass flips the flag of at most one intrusion from false to
true. -/
theorem C4_detected_monotone (cx : ℚ) (t : ℤ) (l : List Intrusion) :
    (∀ j : ℕ, (l.getD j dummyIntrusion).detected = true →
      (mark_first_detected cx t l).1.getD j dummyIntrusion
        = l.getD j dummyIntrusion) ∧
    List.countP (fun p => p.1.detected && !p.2.detected)
      ((mark_first_detected cx t l).1.zip l) ≤ 1 := by
  induction l with
  | nil => exact ⟨fun j _ => rfl, by simp [mark_first_detected]⟩
  | cons i rest ih =>
    cases hm : matchPred cx i with
    | true =>
      refine ⟨?_, ?_⟩
      · intro j hj
        cases j with
        | zero =>
          exfalso
          simp only [List.getD_cons_zero] at hj
          simp [matchPred, hj] at hm
        | succ k =>
          simp [mark_first_detected, hm, List.getD_cons_succ]
      · simp only [mark_first_detected, hm, if_true]
        rw [List.zip_cons_cons, List.countP_cons, countP_flip_zip_self]
        split_ifs <;> simp
    | false =>
      refine ⟨?_, ?_⟩
      · intro j hj
        cases j with
        | zero => simp [mark_first_detected, hm, List.getD_cons_zero]
        | succ k =>
          simp only [List.getD_cons_succ] at hj ⊢
          simp only [mark_first_detected, hm, Bool.false_eq_true, if_false,
            List.getD_cons_succ]
          exact ih.1 k hj
      · simp only [mark_first_detected, hm, Bool.false_eq_true, if_false]
        rw [List.zip_cons_cons, List.countP_cons]
        simp only [Bool.and_not_self]
        simpa using ih.2

/-- an already-detected intrusion used by the C4 witness. -/
def c4Intrusion : Intrusion :=
  { itype := .human, position := 500, start_time := 0, duration := 40,
    detected := true, affected_nodes := 0 }

/-- C4 witness: an already-detected concrete intrusion is returned unchanged
by a later alert's matching pass. -/
theorem C4_detected_monotone_witness :
    (mark_first_detected 500 9 [c4Intrusion]).1.getD 0 dummyIntrusion
      = [c4Intrusion].getD 0 dummyIntrusion :=
  (C4_detected_monotone 500 9 [c4Intrusion]).1 0 rfl

/-- C1 amended: the matcher marks exactly the first intrusion, of any type,
whose detected flag is false and whose position is within 100 m of the
cluster x position, and records its latency as current time minus spawn
time; the alert's label is never consulted. -/
theorem C1_first_match_any_type (cx : ℚ) (t : ℤ) (l : List Intrusion) (j : ℕ)
    (hj : j < l.length)
    (hmatch : matchPred cx (l.getD j dummyIntrusion) = true)
    (hfirst : ∀ k, k < j → matchPred cx (l.getD k dummyIntrusion) = false) :
    (mark_first_detected cx t l).1 =
      l.set j (setDetected (l.getD j dummyIntrusion)) ∧
    (mark_first_detected cx t l).2 =
      some (t - (l.getD j dummyIntrusion).start_time) := by
  induction l generalizing j with
  | nil => simp at hj
  | cons i rest ih =>
    cases j with
    | zero =>
      simp only [List.getD_cons_zero] at hmatch ⊢
      simp [mark_first_detected, hmatch]
    | succ k =>
      have h0 : matchPred cx i = false := by
        simpa using hfirst 0 (Nat.succ_pos k)
      have hrec := ih k (by simpa using hj)
        (by simpa using hmatch)
        (fun m hm => by simpa using hfirst (m + 1) (Nat.succ_lt_succ hm))
      simp only [List.getD_cons_succ]
      constructor
      · simp only [mark_first_detected, h0, Bool.false_eq_true, if_false,
          List.set_cons_succ]
        rw [hrec.1]
      · simp only [mark_first_detected, h0, Bool.false_eq_true, if_false]
        rw [hrec.2]

/-- an undetected vehicle intrusion used by the C1 amended witness. -/
def c1wIntrusion : Intrusion :=
  { itype := .vehicle, position := 480, start_time := 2, duration := 40,
    detected := false, affected_nodes := 0 }

/-- C1 amended witness at a singleton intrusion list. -/
theorem C1_first_match_any_type_witness :
    (mark_first_detected 500 9 [c1wIntrusion]).1 =
      [c1wIntrusion].set 0 (setDetected ([c1wIntrusion].getD 0 dummyIntrusion)) ∧
    (mark_first_detected 500 9 [c1wIntrusion]).2 =
      some (9 - ([c1wIntrusion].getD 0 dummyIntrusion).start_time) :=
  C1_first_match_any_type 500 9 [c1wIntrusion] 0 (by decide)
    (by with_unfolding_all rfl)
    (fun k hk => absurd hk (Nat.not_lt_zero k))

/-- getD of a mapped list below the length is the image of getD. -/
theorem getD_map_of_lt {α β : Type} (f : α → β) (l : List α) (j : ℕ) (d : α)
    (d2 : β) (h : j < l.length) : (l.map f).getD j d2 = f (l.getD j d) := by
  induction l generalizing j with
  | nil => simp at h
  | cons a tl ih =>
    cases j with
    | zero => rfl
    | succ k =>
      simp only [List.map_cons, List.getD_cons_succ]
      exact ih k (by simpa using h)

/-- a node outside the activation radius is left unchanged by one activation
pass. -/
theorem activate_preserve_outside (pos : ℚ) (t : IKind) (ns : List SensorNode)
    (j : ℕ) (hj : j < ns.length)
    (hd : decide (|(ns.getD j dummyNode).x - pos| ≤ sensorRange * 1.05) = false) :
    (activate_nearby_sensors pos t ns).getD j dummyNode = ns.getD j dummyNode := by
  have he : activationEligible pos (ns.getD j dummyNode) = false := by
    unfold activationEligible
    rw [hd, Bool.false_and]
  unfold activate_nearby_sensors
  rw [getD_map_of_lt _ ns j dummyNode dummyNode hj]
  simp only [he, Bool.false_eq_true, if_false]

/-- a node outside every active intrusion's activation radius is left
unchanged by the whole activation fold. -/
theorem apply_intrusions_preserve (ints : List Intrusion) (ns : List SensorNode)
    (j : ℕ) (hj : j < ns.length)
    (hout : ∀ i ∈ ints,
      decide (|(ns.getD j dummyNode).x - i.position| ≤ sensorRange * 1.05)
        = false) :
    (ints.foldl (fun acc i => activate_nearby_sensors i.position i.itype acc)
      ns).getD j dummyNode = ns.getD j dummyNode := by
  induction ints generalizing ns with
  | nil => rfl
  | cons i rest ih =>
    have hstep : (activate_nearby_sensors i.position i.itype ns).getD j dummyNode
        = ns.getD j dummyNode :=
      activate_preserve_outside i.position i.itype ns j hj
        (hout i (List.mem_cons_self i rest))
    have hlen : j < (activate_nearby_sensors i.position i.itype ns).length := by
      simpa [activate_nearby_sensors] using hj
    have hrest : ∀ i2 ∈ rest,
        decide (|((activate_nearby_sensors i.position i.itype ns).getD j
            dummyNode).x - i2.position| ≤ sensorRange * 1.05) = false := by
      intro i2 hi2
      rw [hstep]
      exact hout i2 (List.mem_cons_of_mem i hi2)
    rw [List.foldl_cons, ih (activate_nearby_sensors i.position i.itype ns)
      hlen hrest, hstep]

/-- C3 amended: the cycle-start pass resets every node's intrusion_detected
flag to false before activation reapplies it, and a node that lies outside
the activation radius of every active intrusion comes out of the synthesis
pass with exactly its previous readings except for that cleared flag (its
reading vector is not returned to the ambient baseline). -/
theorem C3_synthesis_outside (ints : List Intrusion) (nodes : List SensorNode)
    (j : ℕ) (hj : j < nodes.length)
    (hout : ∀ i ∈ ints,
      decide (|(nodes.getD j dummyNode).x - i.position| ≤ sensorRange * 1.05)
        = false) :
    (synthesis_pass ints nodes).getD j dummyNode =
      { nodes.getD j dummyNode with
        readings := { (nodes.getD j dummyNode).readings with
          intrusion_detected := false } } ∧
    ∀ k : ℕ,
      ((reset_intrusion_flags nodes).getD k dummyNode).readings.intrusion_detected
        = false := by
  constructor
  · unfold synthesis_pass
    have hlen : j < (reset_intrusion_flags nodes).length := by
      simpa [reset_intrusion_flags] using hj
    have hreset : (reset_intrusion_flags nodes).getD j dummyNode =
        { nodes.getD j dummyNode with
          readings := { (nodes.getD j dummyNode).readings with
            intrusion_detected := false } } := by
      unfold reset_intrusion_flags
      exact getD_map_of_lt _ nodes j dummyNode dummyNode hj
    have hout2 : ∀ i ∈ ints,
        decide (|((reset_intrusion_flags nodes).getD j dummyNode).x - i.position|
          ≤ sensorRange * 1.05) = false := by
      intro i hi
      rw [hreset]
      exact hout i hi
    rw [apply_intrusions_preserve ints (reset_intrusion_flags nodes) j hlen hout2,
      hreset]
  · intro k
    by_cases hk : k < nodes.length
    · unfold reset_intrusion_flags
      rw [getD_map_of_lt _ nodes k dummyNode dummyNode hk]
    · have hlen2 : (reset_intrusion_flags nodes).length ≤ k := by
        simpa [reset_intrusion_flags] using Nat.le_of_not_lt hk
      rw [List.getD_eq_default _ _ hlen2]
      rfl

/-- a node at abscissa 100 used by the C3 counterexample and witness. -/
def c3Node : SensorNode := { dummyNode with x := 100 }

/-- a human intrusion on top of the node, used by the C3 counterexample. -/
def c3Intrusion : Intrusion :=
  { itype := .human, position := 100, start_time := 0, duration := 40,
    detected := false, affected_nodes := 0 }

/-- C3 counterexample: a node activated by a human intrusion in one cycle
still shows the forced pattern (thermal 36, vibration 0.8) in the next cycle
with no active intrusions, instead of the ambient baseline (thermal 25,
vibration 0) of the initial readings; only the flag is cleared. -/
theorem C3_counterexample :
    ((synthesis_pass [] (synthesis_pass [c3Intrusion] [c3Node])).getD 0
        dummyNode).is_active = true ∧
    ((synthesis_pass [] (synthesis_pass [c3Intrusion] [c3Node])).getD 0
        dummyNode).readings.intrusion_detected = false ∧
    ((synthesis_pass [] (synthesis_pass [c3Intrusion] [c3Node])).getD 0
        dummyNode).readings.thermal = 36 ∧
    ((synthesis_pass [] (synthesis_pass [c3Intrusion] [c3Node])).getD 0
        dummyNode).readings.vibration = 0.8 ∧
    (initialReadings 1).thermal = 25 ∧
    (initialReadings 1).vibration = 0 ∧
    ¬ ((36 : ℚ) = 25) ∧ ¬ ((0.8 : ℚ) = 0) :=
  of_decide_eq_true (by with_unfolding_all rfl)

/-- an intrusion far from the witness node, used by the C3 witness. -/
def c3FarIntrusion : Intrusion :=
  { itype := .vehicle, position := 900, start_time := 0, duration := 40,
    detected := false, affected_nodes := 0 }

/-- C3 amended witness: a concrete node 800 m away from the only active
intrusion keeps its readings with the flag cleared. -/
theorem C3_synthesis_outside_witness :
    (synthesis_pass [c3FarIntrusion] [c3Node]).getD 0 dummyNode =
      { [c3Node].getD 0 dummyNode with
        readings := { ([c3Node].getD 0 dummyNode).readings with
          intrusion_detected := false } } :=
  (C3_synthesis_outside [c3FarIntrusion] [c3Node] 0 (by decide)
    (by
      intro i hi
      rw [List.mem_singleton.mp hi]
      with_unfolding_all rfl)).1

/-- invariant of the nearest-head fold of _assign_clusters: the final
candidate is within communication range, originates from the accumulator or
from the scanned list, is minimal among the in-range scanned heads, and is
never farther than the accumulator's candidate. -/
theorem nearest_fold_spec (n : SensorNode) (chs : List ClusterHead) :
    ∀ acc : Option (ℕ × ℚ),
      (∀ b bd, acc = some (b, bd) → bd ≤ communicationRange ^ 2) →
      ∀ b bd, chs.foldl (nearest_step n) acc = some (b, bd) →
        bd ≤ communicationRange ^ 2 ∧
        (acc = some (b, bd) ∨
          ∃ ch ∈ chs, ch.chid = b ∧ bd = sqDist n.x n.y ch.x ch.y) ∧
        (∀ ch ∈ chs, sqDist n.x n.y ch.x ch.y ≤ communicationRange ^ 2 →
          bd ≤ sqDist n.x n.y ch.x ch.y) ∧
        (∀ b0 bd0, acc = some (b0, bd0) → bd ≤ bd0) := by
  induction chs with
  | nil =>
    intro acc hacc b bd hres
    simp only [List.foldl_nil] at hres
    refine ⟨hacc b bd hres, Or.inl hres, by simp, ?_⟩
    intro b0 bd0 h0
    rw [hres] at h0
    simp only [Option.some.injEq, Prod.mk.injEq] at h0
    exact le_of_eq h0.2
  | cons c cs ih =>
    intro acc hacc b bd hres
    rw [List.foldl_cons] at hres
    cases acc with
    | none =>
      by_cases hc : sqDist n.x n.y c.x c.y ≤ communicationRange ^ 2
      · have hstep : nearest_step n none c
            = some (c.chid, sqDist n.x n.y c.x c.y) := by
          simp [nearest_step, hc]
        rw [hstep] at hres
        have hacc2 : ∀ b2 bd2,
            (some (c.chid, sqDist n.x n.y c.x c.y) : Option (ℕ × ℚ))
              = some (b2, bd2) → bd2 ≤ communicationRange ^ 2 := by
          intro b2 bd2 h2
          simp only [Option.some.injEq, Prod.mk.injEq] at h2
          exact h2.2 ▸ hc
        obtain ⟨k1, k2, k3, k4⟩ := ih (some (c.chid, sqDist n.x n.y c.x c.y))
          hacc2 b bd hres
        refine ⟨k1, ?_, ?_, ?_⟩
        · cases k2 with
          | inl h =>
            simp only [Option.some.injEq, Prod.mk.injEq] at h
            exact Or.inr ⟨c, List.mem_cons_self c cs, h.1, h.2.symm⟩
          | inr h =>
            obtain ⟨ch, hm, he1, he2⟩ := h
            exact Or.inr ⟨ch, List.mem_cons_of_mem c hm, he1, he2⟩
        · intro ch hm hr
          rcases List.mem_cons.mp hm with rfl | hm2
          · exact k4 ch.chid (sqDist n.x n.y ch.x ch.y) rfl
          · exact k3 ch hm2 hr
        · intro b0 bd0 h0
          cases h0
      · have hstep : nearest_step n none c = none := by
          simp [nearest_step, hc]
        rw [hstep] at hres
        obtain ⟨k1, k2, k3, k4⟩ := ih none (by intro b2 bd2 h2; cases h2)
          b bd hres
        refine ⟨k1, ?_, ?_, ?_⟩
        · cases k2 with
          | inl h => cases h
          | inr h =>
            obtain ⟨ch, hm, he1, he2⟩ := h
            exact Or.inr ⟨ch, List.mem_cons_of_mem c hm, he1, he2⟩
        · intro ch hm hr
          rcases List.mem_cons.mp hm with rfl | hm2
          · exact absurd hr hc
          · exact k3 ch hm2 hr
        · intro b0 bd0 h0
          cases h0
    | some pr =>
      obtain ⟨b0, bd0⟩ := pr
      have hbd0 : bd0 ≤ communicationRange ^ 2 := hacc b0 bd0 rfl
      by_cases h1 : sqDist n.x n.y c.x c.y < bd0
      · by_cases h2 : sqDist n.x n.y c.x c.y ≤ communicationRange ^ 2
        · have hstep : nearest_step n (some (b0, bd0)) c
              = some (c.chid, sqDist n.x n.y c.x c.y) := by
            simp [nearest_step, h1, h2]
          rw [hstep] at hres
          have hacc2 : ∀ b2 bd2,
              (some (c.chid, sqDist n.x n.y c.x c.y) : Option (ℕ × ℚ))
                = some (b2, bd2) → bd2 ≤ communicationRange ^ 2 := by
            intro b2 bd2 h3
            simp only [Option.some.injEq, Prod.mk.injEq] at h3
            exact h3.2 ▸ h2
          obtain ⟨k1, k2, k3, k4⟩ := ih (some (c.chid, sqDist n.x n.y c.x c.y))
            hacc2 b bd hres
          refine ⟨k1, ?_, ?_, ?_⟩
          · cases k2 with
            | inl h =>
              simp only [Option.some.injEq, Prod.mk.injEq] at h
              exact Or.inr ⟨c, List.mem_cons_self c cs, h.1, h.2.symm⟩
            | inr h =>
              obtain ⟨ch, hm, he1, he2⟩ := h
              exact Or.inr ⟨ch, List.mem_cons_of_mem c hm, he1, he2⟩
          · intro ch hm hr
            rcases List.mem_cons.mp hm with rfl | hm2
            · exact k4 ch.chid (sqDist n.x n.y ch.x ch.y) rfl
            · exact k3 ch hm2 hr
          · intro b0' bd0' h0
            simp only [Option.some.injEq, Prod.mk.injEq] at h0
            have hbdd : bd ≤ sqDist n.x n.y c.x c.y :=
              k4 c.chid (sqDist n.x n.y c.x c.y) rfl
            have hlt : sqDist n.x n.y c.x c.y < bd0' := h0.2 ▸ h1
            linarith
        · have hstep : nearest_step n (some (b0, bd0)) c = some (b0, bd0) := by
            simp [nearest_step, h2]
          rw [hstep] at hres
          obtain ⟨k1, k2, k3, k4⟩ := ih (some (b0, bd0)) hacc b bd hres
          refine ⟨k1, ?_, ?_, ?_⟩
          · cases k2 with
            | inl h => exact Or.inl h
            | inr h =>
              obtain ⟨ch, hm, he1, he2⟩ := h
              exact Or.inr ⟨ch, List.mem_cons_of_mem c hm, he1, he2⟩
          · intro ch hm hr
            rcases List.mem_cons.mp hm with rfl | hm2
            · exact absurd hr h2
            · exact k3 ch hm2 hr
          · exact k4
      · have hstep : nearest_step n (some (b0, bd0)) c = some (b0, bd0) := by
          simp [nearest_step, h1]
        rw [hstep] at hres
        obtain ⟨k1, k2, k3, k4⟩ := ih (some (b0, bd0)) hacc b bd hres
        refine ⟨k1, ?_, ?_, ?_⟩
        · cases k2 with
          | inl h => exact Or.inl h
          | inr h =>
            obtain ⟨ch, hm, he1, he2⟩ := h
            exact Or.inr ⟨ch, List.mem_cons_of_mem c hm, he1, he2⟩
        · intro ch hm hr
          rcases List.mem_cons.mp hm with rfl | hm2
          · have hb : bd ≤ bd0 := k4 b0 bd0 rfl
            have hge : bd0 ≤ sqDist n.x n.y ch.x ch.y := le_of_not_lt h1
            linarith
          · exact k3 ch hm2 hr
        · exact k4

/-- C9: a produced snapshot's total_motion is the sum of the pir flags of
exactly the active in-range assigned members; a node can be a member of two
cluster collections only if they have the same cluster id (assignment stores
a single cluster_head_id per node); and the deployment assignment picks an
in-range head of minimal distance. -/
theorem C9_total_motion_no_double_count :
    (∀ (ch : ClusterHead) (nodes : List SensorNode) (cd : ClusterData)
        (s : SensorSummary),
      collect_cluster_data ch nodes = some cd → cd.sensor_summary = some s →
      s.total_motion
        = ((nodes.filter (memberPred ch)).map fun nd => nd.readings.pir).sum) ∧
    (∀ (c1 c2 : ClusterHead) (nodes : List SensorNode) (nd : SensorNode),
      c1.chid ≠ c2.chid → nd ∈ active_members c1 nodes →
      nd ∈ active_members c2 nodes → False) ∧
    (∀ (chs : List ClusterHead) (nd : SensorNode) (cid : ℕ),
      assign_clusters_nearest chs nd = some cid →
      ∃ ch ∈ chs, ch.chid = cid ∧
        sqDist nd.x nd.y ch.x ch.y ≤ communicationRange ^ 2 ∧
        ∀ ch2 ∈ chs, sqDist nd.x nd.y ch2.x ch2.y ≤ communicationRange ^ 2 →
          sqDist nd.x nd.y ch.x ch.y ≤ sqDist nd.x nd.y ch2.x ch2.y) := by
  refine ⟨?_, ?_, ?_⟩
  · intro ch nodes cd s hc hs
    unfold collect_cluster_data at hc
    cases hact : ch.is_active with
    | false => simp [hact] at hc
    | true =>
      simp only [hact, Bool.not_true, Bool.false_eq_true, if_false] at hc
      cases hempty : (active_members ch nodes).isEmpty with
      | true => simp [hempty] at hc
      | false =>
        simp only [hempty, Bool.false_eq_true, if_false,
          Option.some.injEq] at hc
        subst hc
        have hagg : some (aggregate_sensor_data (active_members ch nodes))
            = some s := hs
        have : aggregate_sensor_data (active_members ch nodes) = s :=
          Option.some.inj hagg
        rw [← this]
        rfl
  · intro c1 c2 nodes nd hne h1 h2
    simp only [active_members, List.mem_filter, memberPred, Bool.and_eq_true,
      beq_iff_eq] at h1 h2
    exact hne (Option.some.inj ((h1.2.1.2).symm.trans (h2.2.1.2)))
  · intro chs nd cid hassign
    unfold assign_clusters_nearest at hassign
    obtain ⟨⟨b, bd⟩, hfold, hfst⟩ := Option.map_eq_some'.mp hassign
    obtain ⟨k1, k2, k3, k4⟩ := nearest_fold_spec nd chs none
      (by intro b2 bd2 h2; cases h2) b bd hfold
    cases k2 with
    | inl h => cases h
    | inr h =>
      obtain ⟨ch, hm, he1, he2⟩ := h
      refine ⟨ch, hm, ?_, ?_, ?_⟩
      · exact hfst ▸ he1
      · rw [← he2]
        exact k1
      · intro ch2 hm2 hr2
        rw [← he2]
        exact k3 ch2 hm2 hr2

/-- a concrete cluster head used by the C9 witness. -/
def c9Head1 : ClusterHead :=
  { chid := 1, x := 250, y := 125, is_active := true, battery := 100,
    data_buffer_len := 0 }

/-- a second, farther cluster head used by the C9 witness. -/
def c9Head2 : ClusterHead :=
  { chid := 2, x := 750, y := 125, is_active := true, battery := 100,
    data_buffer_len := 0 }

/-- a concrete node close to the first head, used by the C9 witness. -/
def c9Node : SensorNode :=
  { dummyNode with x := 240, y := 125, cluster_head_id := some 1 }

/-- C9 witness: on a concrete two-head deployment the assignment picks the
in-range head of minimal distance. -/
theorem C9_total_motion_no_double_count_witness :
    ∃ ch ∈ [c9Head1, c9Head2], ch.chid = 1 ∧
      sqDist c9Node.x c9Node.y ch.x ch.y ≤ communicationRange ^ 2 ∧
      ∀ ch2 ∈ [c9Head1, c9Head2],
        sqDist c9Node.x c9Node.y ch2.x ch2.y ≤ communicationRange ^ 2 →
        sqDist c9Node.x c9Node.y ch.x ch.y
          ≤ sqDist c9Node.x c9Node.y ch2.x ch2.y :=
  C9_total_motion_no_double_count.2.2 [c9Head1, c9Head2] c9Node 1
    (of_decide_eq_true (by with_unfolding_all rfl))

end WSN
